import Mathlib

/-!
The `auth0_user_authentication_method` resource.

A shallow embedding of `internal/auth0/user/resource_authentication_method.go`:
the schema declaration and the four functions `createUserAuthenticationMethod`,
`readUserAuthenticationMethod`, `deleteUserAuthenticationMethod` and
`getUserAuthenticationMethodID`.

* The management API client is an arbitrary state machine (`API σ`): every call
  takes the remote state and hands back the next remote state with its answer.
  Every call made through the client is appended to a log (`World.calls`).
* The listing call hands back a pointer to a list object and an error; the
  pointer may be nil although the error is nil. The pointer fields of a listed
  record are `Option String`. Dereferencing a nil pointer is the outcome
  `Outcome.panics`.
* The resource data is a record of the four string attributes, the identifier
  and the new-resource mark.
-/

set_option autoImplicit false

namespace Auth0User

/-! ## Data model -/

/-- An error of the management API client. `notFound` tells whether the API
signalled that the addressed object does not exist. -/
structure APIError where
  message : String
  notFound : Bool
deriving DecidableEq, Repr

/-- The record `management.AuthenticationMethod`, restricted to the fields the
resource touches. All of them are pointers in the source, so each may be
absent. -/
structure AuthenticationMethod where
  ID : Option String
  Type' : Option String
  Name : Option String
  TOTPSecret : Option String
deriving DecidableEq, Repr

/-- The record `management.AuthenticationMethodList`, restricted to the slice
`Authenticators`. The slice holds pointers to records; a nil element makes the
first field access of either loop panic, exactly as a record whose fields are
all absent does, and is represented by such a record. -/
structure AuthenticationMethodList where
  Authenticators : List AuthenticationMethod
deriving DecidableEq, Repr

/-- Severity of a diagnostic (`diag.Severity`). -/
inductive Severity where
  | Error
  | Warning
deriving DecidableEq, Repr

/-- One diagnostic (`diag.Diagnostic`). -/
structure Diagnostic where
  Severity : Severity
  Summary : String
deriving DecidableEq, Repr

/-- The type `diag.Diagnostics`; the nil slice is the empty list. -/
abbrev Diagnostics := List Diagnostic

/-- The function `diag.FromErr`: nil for a nil error, else one error diagnostic
whose summary is the error text. -/
def FromErr : Option APIError → Diagnostics
  | none => []
  | some err => [{ Severity := Severity.Error, Summary := err.message }]

/-- The part of `schema.ResourceData` that the resource reads and writes: the
four configured attributes, the identifier (`Id` / `SetId`) and the mark read by
`IsNewResource`. -/
structure ResourceData where
  user_id : String
  type : String
  name : String
  totp_secret : String
  id : String
  isNew : Bool
deriving DecidableEq, Repr

/-- The method `data.Id()`. -/
def ResourceData.Id (data : ResourceData) : String := data.id

/-- The method `data.SetId(v)`. -/
def ResourceData.SetId (data : ResourceData) (v : String) : ResourceData :=
  { data with id := v }

/-- The method `data.IsNewResource()`. -/
def ResourceData.IsNewResource (data : ResourceData) : Bool := data.isNew

/-- A call made through the API client. -/
inductive Call where
  | create (userID : String) (a : AuthenticationMethod)
  | list (userID : String)
  | delete (userID : String) (id : String)
deriving DecidableEq, Repr

/-- The three calls of `api.User` that the resource consumes, as transitions of
an arbitrary remote state `σ`. The context argument is only passed through and
is left out. The listing call returns `(*AuthenticationMethodList, error)`:
`Except.error err` is a non-nil error, `Except.ok none` is a nil error with a nil
list pointer, `Except.ok (some l)` is a nil error with the list object `l`. -/
structure API (σ : Type) where
  CreateAuthenticationMethod : σ → String → AuthenticationMethod → σ × Option APIError
  ListAuthenticationMethods :
    σ → String → σ × Except APIError (Option AuthenticationMethodList)
  DeleteAuthenticationMethod : σ → String → String → σ × Option APIError

/-- The remote state together with the log of calls made so far. -/
structure World (σ : Type) where
  remote : σ
  calls : List Call
deriving DecidableEq, Repr

/-- Result of running a Go function: it returns a value, or it panics on a nil
pointer dereference. -/
inductive Outcome (α : Type) where
  | returns (a : α)
  | panics
deriving DecidableEq, Repr

/-- Perform `api.User.CreateAuthenticationMethod(ctx, userID, a)`. -/
def World.create {σ : Type} (api : API σ) (w : World σ) (userID : String)
    (a : AuthenticationMethod) : World σ × Option APIError :=
  ({ remote := (api.CreateAuthenticationMethod w.remote userID a).1,
     calls := w.calls ++ [Call.create userID a] },
   (api.CreateAuthenticationMethod w.remote userID a).2)

/-- Perform `api.User.ListAuthenticationMethods(ctx, userID)`. -/
def World.list {σ : Type} (api : API σ) (w : World σ) (userID : String) :
    World σ × Except APIError (Option AuthenticationMethodList) :=
  ({ remote := (api.ListAuthenticationMethods w.remote userID).1,
     calls := w.calls ++ [Call.list userID] },
   (api.ListAuthenticationMethods w.remote userID).2)

/-- Perform `api.User.DeleteAuthenticationMethod(ctx, userID, id)`. -/
def World.delete {σ : Type} (api : API σ) (w : World σ) (userID id : String) :
    World σ × Option APIError :=
  ({ remote := (api.DeleteAuthenticationMethod w.remote userID id).1,
     calls := w.calls ++ [Call.delete userID id] },
   (api.DeleteAuthenticationMethod w.remote userID id).2)

/-- Modelled from the spec: the helper `internalError.HandleAPIError(data, err)`
lives in `internal/error`, outside the file embedded here. The specification
describes it as the generic API-error translator that turns a "not found" style
API error into success with an empty state (the identifier is cleared and no
error is passed on) and passes every other error on unchanged. -/
def HandleAPIError (data : ResourceData) (err : APIError) : ResourceData × Option APIError :=
  if err.notFound then (data.SetId "", none) else (data, some err)

/-! ## The three lifecycle functions and the lookup helper -/

/-- The loop of `readUserAuthenticationMethod` (source lines 88-92): `true` as
soon as an entry with `*authMethod.ID == id` is met, `false` when the range is
exhausted; dereferencing an absent `ID` panics. -/
def readUserAuthenticationMethod_loop :
    List AuthenticationMethod → String → Outcome Bool
  | [], _ => Outcome.returns false
  | authMethod :: rest, id =>
    match authMethod.ID with
    | none => Outcome.panics
    | some i => if i = id then Outcome.returns true else readUserAuthenticationMethod_loop rest id

/-- The function `readUserAuthenticationMethod`. Only `err` is tested after the
listing call (source lines 84-86); `authMethods.Authenticators` at line 88
dereferences the list pointer, which panics when it is nil. -/
def readUserAuthenticationMethod {σ : Type} (api : API σ) (data : ResourceData)
    (w : World σ) : Outcome (Diagnostics × ResourceData × World σ) :=
  let userID := data.user_id
  let id := data.Id
  match World.list api w userID with
  | (w1, Except.error err) =>
    Outcome.returns (FromErr (HandleAPIError data err).2, (HandleAPIError data err).1, w1)
  | (_, Except.ok none) => Outcome.panics
  | (w1, Except.ok (some authMethods)) =>
    match readUserAuthenticationMethod_loop authMethods.Authenticators id with
    | Outcome.panics => Outcome.panics
    | Outcome.returns true => Outcome.returns ([], data, w1)
    | Outcome.returns false =>
      if !data.IsNewResource then Outcome.returns ([], data.SetId "", w1)
      else Outcome.returns ([], data, w1)

/-- The function `deleteUserAuthenticationMethod`. -/
def deleteUserAuthenticationMethod {σ : Type} (api : API σ) (data : ResourceData)
    (w : World σ) : Outcome (Diagnostics × ResourceData × World σ) :=
  let userID := data.user_id
  let id := data.Id
  match World.delete api w userID id with
  | (w1, some err) =>
    Outcome.returns (FromErr (HandleAPIError data err).2, (HandleAPIError data err).1, w1)
  | (w1, none) => Outcome.returns ([], data, w1)

/-- The loop of `getUserAuthenticationMethodID` (source lines 127-131). The
condition `*authMethod.Name == name && *authMethod.Type == authType` is
evaluated left to right with short circuit, so `Type` is dereferenced only when
the name matched, and `ID` only when both matched. `none` when the range is
exhausted. -/
def getUserAuthenticationMethodID_loop :
    List AuthenticationMethod → String → String → Outcome (Option String)
  | [], _, _ => Outcome.returns none
  | authMethod :: rest, name, authType =>
    match authMethod.Name with
    | none => Outcome.panics
    | some n =>
      if n = name then
        match authMethod.Type' with
        | none => Outcome.panics
        | some t =>
          if t = authType then
            match authMethod.ID with
            | none => Outcome.panics
            | some i => Outcome.returns (some i)
          else getUserAuthenticationMethodID_loop rest name authType
      else getUserAuthenticationMethodID_loop rest name authType

/-- The function `getUserAuthenticationMethodID`; it returns the pair
`(string, error)`. Only `err` is tested after the listing call (source lines
123-125); `authMethods.Authenticators` at line 127 dereferences the list
pointer, which panics when it is nil. -/
def getUserAuthenticationMethodID {σ : Type} (api : API σ) (data : ResourceData)
    (w : World σ) : Outcome ((String × Option APIError) × World σ) :=
  let userID := data.user_id
  let authType := data.type
  let name := data.name
  match World.list api w userID with
  | (w1, Except.error err) => Outcome.returns (("", some err), w1)
  | (_, Except.ok none) => Outcome.panics
  | (w1, Except.ok (some authMethods)) =>
    match getUserAuthenticationMethodID_loop authMethods.Authenticators name authType with
    | Outcome.panics => Outcome.panics
    | Outcome.returns (some i) => Outcome.returns ((i, none), w1)
    | Outcome.returns none => Outcome.returns (("NOTFOUND", none), w1)

/-- The record built at source lines 61-65 and handed to the create call:
`Type`, `Name` and `TOTPSecret` point to the configured values, `ID` is left
nil. -/
def createRequest (data : ResourceData) : AuthenticationMethod :=
  let authType := data.type
  let name := data.name
  let totpSecret := data.totp_secret
  { ID := none, Type' := some authType, Name := some name, TOTPSecret := some totpSecret }

/-- The function `createUserAuthenticationMethod`. -/
def createUserAuthenticationMethod {σ : Type} (api : API σ) (data : ResourceData)
    (w : World σ) : Outcome (Diagnostics × ResourceData × World σ) :=
  let userID := data.user_id
  match World.create api w userID (createRequest data) with
  | (w1, some err) => Outcome.returns (FromErr (some err), data, w1)
  | (w1, none) =>
    match getUserAuthenticationMethodID api data w1 with
    | Outcome.panics => Outcome.panics
    | Outcome.returns ((_, some err), w2) => Outcome.returns (FromErr (some err), data, w2)
    | Outcome.returns ((id, none), w2) => readUserAuthenticationMethod api (data.SetId id) w2

/-! ## The schema declaration -/

/-- Value types of a schema field (`schema.ValueType`). -/
inductive ValueType where
  | TypeBool
  | TypeInt
  | TypeFloat
  | TypeString
  | TypeList
  | TypeMap
  | TypeSet
deriving DecidableEq, Repr

/-- The fields of `schema.Schema` that the declaration sets; a field left out of
a Go composite literal has its zero value (`false`). -/
structure Schema where
  Type' : ValueType
  Required : Bool := false
  Optional : Bool := false
  ForceNew : Bool := false
  Sensitive : Bool := false
  Description : String := ""
deriving DecidableEq, Repr

/-- A lifecycle entry point of a resource. -/
abbrev Handler (σ : Type) : Type :=
  API σ → ResourceData → World σ → Outcome (Diagnostics × ResourceData × World σ)

/-- The fields of `schema.Resource` that matter here: the schema map, the
context-aware lifecycle functions, and the two other places where an update
function could be given (`Update`, `UpdateWithoutTimeout`). A function left out
of the composite literal is nil (`none`). The importer is recorded by the
arguments given to `internalSchema.ImportResourceGroupID`. -/
structure Resource (σ : Type) where
  Schema : List (String × Schema)
  CreateContext : Option (Handler σ) := none
  ReadContext : Option (Handler σ) := none
  UpdateContext : Option (Handler σ) := none
  DeleteContext : Option (Handler σ) := none
  Update : Option (Handler σ) := none
  UpdateWithoutTimeout : Option (Handler σ) := none
  Importer : Option (List String) := none
  Description : String := ""

/-- The function `NewAuthenticationMethodResource`. -/
def NewAuthenticationMethodResource (σ : Type) : Resource σ :=
  { Schema := [
      ("user_id",
        { Type' := ValueType.TypeString, Required := true, ForceNew := true,
          Description := "ID of the user to associate the permission to." }),
      ("type",
        { Type' := ValueType.TypeString, Required := true, ForceNew := true,
          Description := "The type of the authentication method." }),
      ("name",
        { Type' := ValueType.TypeString, Required := true, ForceNew := true,
          Description := "A human-readable label to identify the authentication method." }),
      ("totp_secret",
        { Type' := ValueType.TypeString, Optional := true, ForceNew := true, Sensitive := true,
          Description := "Base32 encoded secret for TOTP generation." })],
    CreateContext := some createUserAuthenticationMethod,
    ReadContext := some readUserAuthenticationMethod,
    DeleteContext := some deleteUserAuthenticationMethod,
    Importer := some ["user_id", "resource_server_identifier", "permission"],
    Description := "With this resource, you can manage user authentication methods." }

/-- Look a field up in the schema map. -/
def Resource.field {σ : Type} (r : Resource σ) (key : String) : Option Auth0User.Schema :=
  (r.Schema.find? (fun kv => kv.1 == key)).map Prod.snd

/-! ## Sample clients and resource data -/

/-- A client whose create and delete calls succeed and whose listing call always
answers `authMethods`. -/
def fixedListing (authMethods : List AuthenticationMethod) : API Unit :=
  { CreateAuthenticationMethod := fun s _ _ => (s, none),
    ListAuthenticationMethods := fun s _ =>
      (s, Except.ok (some { Authenticators := authMethods })),
    DeleteAuthenticationMethod := fun s _ _ => (s, none) }

/-- A client whose create and delete calls succeed, whose first listing call
answers `first` and whose later listing calls answer `second`. The remote state
records whether a listing has been served. -/
def twoListings (first second : List AuthenticationMethod) : API Bool :=
  { CreateAuthenticationMethod := fun s _ _ => (s, none),
    ListAuthenticationMethods := fun s _ =>
      (true, Except.ok (some { Authenticators := if s then second else first })),
    DeleteAuthenticationMethod := fun s _ _ => (s, none) }

/-- A client whose create and delete calls succeed and whose listing call
answers with a nil list pointer and a nil error. -/
def nilListing : API Unit :=
  { CreateAuthenticationMethod := fun s _ _ => (s, none),
    ListAuthenticationMethods := fun s _ => (s, Except.ok none),
    DeleteAuthenticationMethod := fun s _ _ => (s, none) }

/-- A client every call of which fails with `err`. -/
def failing (err : APIError) : API Unit :=
  { CreateAuthenticationMethod := fun s _ _ => (s, some err),
    ListAuthenticationMethods := fun s _ => (s, Except.error err),
    DeleteAuthenticationMethod := fun s _ _ => (s, some err) }

/-- The configuration `user_id = "u1"`, `type = "totp"`, `name = "Phone"`,
`totp_secret = "ABC123"` with identifier `id`. -/
def phone (id : String) (isNew : Bool) : ResourceData :=
  { user_id := "u1", type := "totp", name := "Phone", totp_secret := "ABC123",
    id := id, isNew := isNew }

/-- The remote record `am1`: a TOTP method named `Phone`. -/
def am1 : AuthenticationMethod :=
  { ID := some "am1", Type' := some "totp", Name := some "Phone", TOTPSecret := none }

/-- The remote record `am2`: named `Phone` as well, but of type `email`. -/
def am2 : AuthenticationMethod :=
  { ID := some "am2", Type' := some "email", Name := some "Phone", TOTPSecret := none }

/-- The remote record `am3`: a second TOTP method named `Phone`. -/
def am3 : AuthenticationMethod :=
  { ID := some "am3", Type' := some "totp", Name := some "Phone", TOTPSecret := none }

/-- A remote record without a name: identifier `am0`, type `email`. -/
def unnamed : AuthenticationMethod :=
  { ID := some "am0", Type' := some "email", Name := none, TOTPSecret := none }

/-- A remote record whose identifier is the text `NOTFOUND`. -/
def stray : AuthenticationMethod :=
  { ID := some "NOTFOUND", Type' := some "email", Name := some "Backup", TOTPSecret := none }

/-- A remote record without an identifier. -/
def anonymous : AuthenticationMethod :=
  { ID := none, Type' := some "totp", Name := some "Tablet", TOTPSecret := none }

/-- The initial world over the one-point remote state: nothing called yet. -/
def start : World Unit := { remote := (), calls := [] }

/-- The initial world for `twoListings`: no listing served, nothing called
yet. -/
def fresh : World Bool := { remote := false, calls := [] }

/-! ## Lemmas on the two loops -/

theorem FromErr_some_ne_nil (err : APIError) : FromErr (some err) ≠ [] := by
  simp [FromErr]

/-- The read loop answers `false` when every entry carries an identifier other
than the sought one. -/
theorem read_loop_absent (id : String) (authMethods : List AuthenticationMethod)
    (h : ∀ m ∈ authMethods, ∃ i, m.ID = some i ∧ i ≠ id) :
    readUserAuthenticationMethod_loop authMethods id = Outcome.returns false := by
  induction authMethods with
  | nil => rfl
  | cons a rest ih =>
    obtain ⟨i, hi, hne⟩ := h a (List.mem_cons_self a rest)
    have hrest := ih (fun m hm => h m (List.mem_cons_of_mem a hm))
    simp [readUserAuthenticationMethod_loop, hi, hne, hrest]

/-- The read loop answers `true` when an entry carries the sought identifier
and every entry before it carries some identifier. -/
theorem read_loop_present (id : String) (pre post : List AuthenticationMethod)
    (m : AuthenticationMethod) (hpre : ∀ x ∈ pre, ∃ i, x.ID = some i) (hm : m.ID = some id) :
    readUserAuthenticationMethod_loop (pre ++ m :: post) id = Outcome.returns true := by
  induction pre with
  | nil => simp [readUserAuthenticationMethod_loop, hm]
  | cons a rest ih =>
    obtain ⟨i, hi⟩ := hpre a (List.mem_cons_self a rest)
    have hrest := ih (fun x hx => hpre x (List.mem_cons_of_mem a hx))
    by_cases hia : i = id
    · simp [readUserAuthenticationMethod_loop, hi, hia]
    · simp [readUserAuthenticationMethod_loop, hi, hia, hrest]

/-- The read loop returns when every entry carries an identifier. -/
theorem read_loop_returns (id : String) (authMethods : List AuthenticationMethod)
    (h : ∀ m ∈ authMethods, ∃ i, m.ID = some i) :
    ∃ b, readUserAuthenticationMethod_loop authMethods id = Outcome.returns b := by
  induction authMethods with
  | nil => exact ⟨false, rfl⟩
  | cons a rest ih =>
    obtain ⟨i, hi⟩ := h a (List.mem_cons_self a rest)
    obtain ⟨b, hb⟩ := ih (fun m hm => h m (List.mem_cons_of_mem a hm))
    by_cases hia : i = id
    · exact ⟨true, by simp [readUserAuthenticationMethod_loop, hi, hia]⟩
    · exact ⟨b, by simp [readUserAuthenticationMethod_loop, hi, hia, hb]⟩

/-- The lookup loop finds nothing when every entry has a name and, where the
name is the sought one, a type other than the sought one. -/
theorem lookup_loop_absent (name authType : String) (authMethods : List AuthenticationMethod)
    (h : ∀ x ∈ authMethods, ∃ n, x.Name = some n ∧
      (n = name → ∃ t, x.Type' = some t ∧ t ≠ authType)) :
    getUserAuthenticationMethodID_loop authMethods name authType = Outcome.returns none := by
  induction authMethods with
  | nil => rfl
  | cons a rest ih =>
    obtain ⟨n, hn, hty⟩ := h a (List.mem_cons_self a rest)
    have hrest := ih (fun m hm => h m (List.mem_cons_of_mem a hm))
    by_cases hna : n = name
    · obtain ⟨t, ht, hne⟩ := hty hna
      simp [getUserAuthenticationMethodID_loop, hn, hna, ht, hne, hrest]
    · simp [getUserAuthenticationMethodID_loop, hn, hna, hrest]

/-- The lookup loop stops at the first entry with the sought name and type. -/
theorem lookup_loop_first (name authType i : String) (pre post : List AuthenticationMethod)
    (m : AuthenticationMethod)
    (hpre : ∀ x ∈ pre, ∃ n, x.Name = some n ∧
      (n = name → ∃ t, x.Type' = some t ∧ t ≠ authType))
    (hname : m.Name = some name) (htype : m.Type' = some authType) (hid : m.ID = some i) :
    getUserAuthenticationMethodID_loop (pre ++ m :: post) name authType
      = Outcome.returns (some i) := by
  induction pre with
  | nil => simp [getUserAuthenticationMethodID_loop, hname, htype, hid]
  | cons a rest ih =>
    obtain ⟨n, hn, hty⟩ := hpre a (List.mem_cons_self a rest)
    have hrest := ih (fun x hx => hpre x (List.mem_cons_of_mem a hx))
    by_cases hna : n = name
    · obtain ⟨t, ht, hne⟩ := hty hna
      simp [getUserAuthenticationMethodID_loop, hn, hna, ht, hne, hrest]
    · simp [getUserAuthenticationMethodID_loop, hn, hna, hrest]

/-- What a returned answer of the lookup loop says about the listing: `some i`
is the identifier of an entry with the sought name and type, `none` means that
no entry has both. -/
theorem lookup_loop_sound (name authType : String) (authMethods : List AuthenticationMethod)
    (r : Option String)
    (h : getUserAuthenticationMethodID_loop authMethods name authType = Outcome.returns r) :
    match r with
    | some i => ∃ m ∈ authMethods, m.ID = some i ∧ m.Type' = some authType ∧ m.Name = some name
    | none => ∀ m ∈ authMethods, ¬ (m.Name = some name ∧ m.Type' = some authType) := by
  induction authMethods with
  | nil =>
    simp [getUserAuthenticationMethodID_loop] at h
    subst h
    simp
  | cons a rest ih =>
    unfold getUserAuthenticationMethodID_loop at h
    cases hn : a.Name with
    | none => simp [hn] at h
    | some n =>
      simp only [hn] at h
      by_cases hna : n = name
      · simp only [hna, if_true] at h
        cases ht : a.Type' with
        | none => simp [ht] at h
        | some t =>
          simp only [ht] at h
          by_cases hta : t = authType
          · simp only [hta, if_true] at h
            cases hi : a.ID with
            | none => simp [hi] at h
            | some i =>
              simp only [hi, Outcome.returns.injEq] at h
              subst h
              exact ⟨a, List.mem_cons_self a rest, hi, by rw [ht, hta], by rw [hn, hna]⟩
          · simp only [hta, if_false] at h
            have hr := ih h
            cases r with
            | some i =>
              obtain ⟨m, hm, h1, h2, h3⟩ := hr
              exact ⟨m, List.mem_cons_of_mem a hm, h1, h2, h3⟩
            | none =>
              intro m hm
              rcases List.mem_cons.mp hm with rfl | hm
              · rintro ⟨_, h2⟩
                rw [ht] at h2
                exact hta (Option.some.inj h2)
              · exact hr m hm
      · simp only [hna, if_false] at h
        have hr := ih h
        cases r with
        | some i =>
          obtain ⟨m, hm, h1, h2, h3⟩ := hr
          exact ⟨m, List.mem_cons_of_mem a hm, h1, h2, h3⟩
        | none =>
          intro m hm
          rcases List.mem_cons.mp hm with rfl | hm
          · rintro ⟨h1, _⟩
            rw [hn] at h1
            exact hna (Option.some.inj h1)
          · exact hr m hm

/-- The lookup loop returns when every entry carries identifier, name and
type. -/
theorem lookup_loop_returns (name authType : String) (authMethods : List AuthenticationMethod)
    (h : ∀ m ∈ authMethods, (∃ i, m.ID = some i) ∧ (∃ n, m.Name = some n) ∧
      (∃ t, m.Type' = some t)) :
    ∃ r, getUserAuthenticationMethodID_loop authMethods name authType = Outcome.returns r := by
  induction authMethods with
  | nil => exact ⟨none, rfl⟩
  | cons a rest ih =>
    obtain ⟨⟨i, hi⟩, ⟨n, hn⟩, ⟨t, ht⟩⟩ := h a (List.mem_cons_self a rest)
    obtain ⟨r, hr⟩ := ih (fun m hm => h m (List.mem_cons_of_mem a hm))
    by_cases hna : n = name
    · by_cases hta : t = authType
      · exact ⟨some i, by simp [getUserAuthenticationMethodID_loop, hi, hn, ht, hna, hta]⟩
      · exact ⟨r, by simp [getUserAuthenticationMethodID_loop, hn, ht, hna, hta, hr]⟩
    · exact ⟨r, by simp [getUserAuthenticationMethodID_loop, hn, hna, hr]⟩

/-- The read loop returns when every entry listed before the first one that
carries the sought identifier (every entry, when there is none) carries some
identifier. -/
theorem read_loop_returns_until (id : String) (authMethods : List AuthenticationMethod)
    (h : ∀ x ∈ authMethods.takeWhile (fun y => decide (y.ID ≠ some id)), ∃ i, x.ID = some i) :
    ∃ b, readUserAuthenticationMethod_loop authMethods id = Outcome.returns b := by
  induction authMethods with
  | nil => exact ⟨false, rfl⟩
  | cons a rest ih =>
    cases ha : a.ID with
    | none =>
      have hmem : a ∈ (a :: rest).takeWhile (fun y => decide (y.ID ≠ some id)) := by
        simp [List.takeWhile_cons, ha]
      obtain ⟨i, hi⟩ := h a hmem
      rw [ha] at hi
      exact Option.noConfusion hi
    | some i =>
      by_cases hia : i = id
      · exact ⟨true, by simp [readUserAuthenticationMethod_loop, ha, hia]⟩
      · have hp : decide (a.ID ≠ some id) = true := by
          simp [ha, hia]
        simp only [List.takeWhile_cons, hp, if_true] at h
        have hrest : ∀ x ∈ rest.takeWhile (fun y => decide (y.ID ≠ some id)),
            ∃ j, x.ID = some j :=
          fun x hx => h x (List.mem_cons_of_mem a hx)
        obtain ⟨b, hb⟩ := ih hrest
        exact ⟨b, by simp [readUserAuthenticationMethod_loop, ha, hia, hb]⟩

/-! ## Read -/

/-- C2, as stated, fails. The client `nilListing` answers the listing call with
a nil error and a nil list pointer, so the listing is successful and has no
entry at all, yet the read panics on `authMethods.Authenticators`. The client
`fixedListing [anonymous]` answers with a list none of whose entries has the
identifier `am-missing`, yet the read of a resource that is not new panics on
the absent `ID` instead of returning with the identifier cleared. -/
theorem read_missing_identifier_counterexample :
    ((nilListing.ListAuthenticationMethods start.remote "u1").2 = Except.ok none
      ∧ readUserAuthenticationMethod nilListing (phone "am-missing" false) start
        = Outcome.panics)
    ∧ (((fixedListing [anonymous]).ListAuthenticationMethods start.remote "u1").2
        = Except.ok (some { Authenticators := [anonymous] })
      ∧ (∀ m ∈ [anonymous], m.ID ≠ some (phone "am-missing" false).id)
      ∧ readUserAuthenticationMethod (fixedListing [anonymous]) (phone "am-missing" false) start
        = Outcome.panics) :=
  ⟨⟨rfl, by decide⟩, ⟨rfl, by decide, by decide⟩⟩

/-- C2 (amended): for every state and every successful listing whose list
pointer is not nil and in which every entry has its identifier present and
different from the current resource identifier, `readUserAuthenticationMethod`
returns no diagnostics, sets the identifier to the empty string when the
resource is not marked as new and leaves the resource data unchanged when it
is; one listing call is made. -/
theorem read_missing_identifier {σ : Type} (api : API σ) (data : ResourceData) (w : World σ)
    (authMethods : List AuthenticationMethod)
    (hlist : (api.ListAuthenticationMethods w.remote data.user_id).2
      = Except.ok (some { Authenticators := authMethods }))
    (hids : ∀ m ∈ authMethods, ∃ i, m.ID = some i ∧ i ≠ data.id) :
    readUserAuthenticationMethod api data w
      = Outcome.returns ([], (if data.isNew then data else data.SetId ""),
          (World.list api w data.user_id).1) := by
  have hloop := read_loop_absent data.id authMethods hids
  cases hnew : data.isNew <;>
    simp [readUserAuthenticationMethod, World.list, hlist, ResourceData.Id,
      ResourceData.IsNewResource, hloop, hnew]

/-- Instance of C2 (amended): reading `am-missing` against the listing `[am1]`
clears the identifier of a resource that is not new. -/
theorem read_missing_identifier_witness :
    readUserAuthenticationMethod (fixedListing [am1]) (phone "am-missing" false) start
      = Outcome.returns ([], phone "" false, { remote := (), calls := [Call.list "u1"] }) :=
  read_missing_identifier (fixedListing [am1]) (phone "am-missing" false) start [am1] rfl
    (by
      intro m hm
      rw [List.mem_singleton] at hm
      subst hm
      exact ⟨"am1", rfl, by decide⟩)

/-- C3, as stated, fails: the listing `[anonymous, am1]` is successful and
contains an entry whose identifier is the current one, `am1`, yet the read
panics on the absent `ID` of the entry listed before it. -/
theorem read_present_identifier_counterexample :
    ((fixedListing [anonymous, am1]).ListAuthenticationMethods start.remote "u1").2
        = Except.ok (some { Authenticators := [anonymous, am1] })
      ∧ (∃ m ∈ [anonymous, am1], m.ID = some (phone "am1" false).id)
      ∧ readUserAuthenticationMethod (fixedListing [anonymous, am1]) (phone "am1" false) start
        = Outcome.panics :=
  ⟨rfl, by decide, by decide⟩

/-- C3 (amended): for every state and every successful listing that contains an
entry whose identifier equals the current resource identifier, every entry
listed before it having its identifier present, `readUserAuthenticationMethod`
returns no diagnostics and leaves the identifier, every attribute and the
new-resource mark exactly as they were, whatever the type and name of the listed
entries are. -/
theorem read_present_identifier {σ : Type} (api : API σ) (data : ResourceData) (w : World σ)
    (pre post : List AuthenticationMethod) (m : AuthenticationMethod)
    (hlist : (api.ListAuthenticationMethods w.remote data.user_id).2
      = Except.ok (some { Authenticators := pre ++ m :: post }))
    (hpre : ∀ x ∈ pre, ∃ i, x.ID = some i)
    (hm : m.ID = some data.id) :
    readUserAuthenticationMethod api data w
      = Outcome.returns ([], data, (World.list api w data.user_id).1) := by
  have hloop := read_loop_present data.id pre post m hpre hm
  simp [readUserAuthenticationMethod, World.list, hlist, ResourceData.Id, hloop]

/-- Instance of C3 (amended): reading `am1` against the listing
`[unnamed, am1, anonymous]` changes nothing. -/
theorem read_present_identifier_witness :
    readUserAuthenticationMethod (fixedListing [unnamed, am1, anonymous]) (phone "am1" false)
        start
      = Outcome.returns ([], phone "am1" false, { remote := (), calls := [Call.list "u1"] }) :=
  read_present_identifier (fixedListing [unnamed, am1, anonymous]) (phone "am1" false) start
    [unnamed] [anonymous] am1 rfl
    (by
      intro x hx
      rw [List.mem_singleton] at hx
      subst hx
      exact ⟨"am0", rfl⟩)
    rfl

/-! ## Identifier lookup -/

/-- C5, as stated, fails: the listing `[unnamed, am1]` is successful and
contains the entry `am1` with name `Phone` and type `totp`, yet the lookup
panics on the absent `Name` of the entry listed before it instead of returning
`am1`. -/
theorem lookup_first_match_counterexample :
    ((fixedListing [unnamed, am1]).ListAuthenticationMethods start.remote "u1").2
        = Except.ok (some { Authenticators := [unnamed, am1] })
      ∧ (∃ m ∈ [unnamed, am1], m.Name = some (phone "" true).name
          ∧ m.Type' = some (phone "" true).type)
      ∧ getUserAuthenticationMethodID (fixedListing [unnamed, am1]) (phone "" true) start
        = Outcome.panics :=
  ⟨rfl, by decide, by decide⟩

/-- C5 (amended): for every `user_id`, `type`, `name` and every successful
listing `pre ++ m :: post` in which `m` has the sought name and type (exact
string equality) and its identifier `i` present, while every entry of `pre` has
its name present and, where that name is the sought one, its type present and
different from the sought one (so `m` is the earliest match),
`getUserAuthenticationMethodID` returns `i` with no error. -/
theorem lookup_first_match {σ : Type} (api : API σ) (data : ResourceData) (w : World σ)
    (pre post : List AuthenticationMethod) (m : AuthenticationMethod) (i : String)
    (hlist : (api.ListAuthenticationMethods w.remote data.user_id).2
      = Except.ok (some { Authenticators := pre ++ m :: post }))
    (hpre : ∀ x ∈ pre, ∃ n, x.Name = some n ∧
      (n = data.name → ∃ t, x.Type' = some t ∧ t ≠ data.type))
    (hname : m.Name = some data.name) (htype : m.Type' = some data.type)
    (hid : m.ID = some i) :
    getUserAuthenticationMethodID api data w
      = Outcome.returns ((i, none), (World.list api w data.user_id).1) := by
  have hloop := lookup_loop_first data.name data.type i pre post m hpre hname htype hid
  simp [getUserAuthenticationMethodID, World.list, hlist, hloop]

/-- Instance of C5 (amended): in the listing `[am2, am1, am3]` the entry `am2`
has the sought name but another type, and `am1` precedes the second match
`am3`; the lookup returns `am1`. -/
theorem lookup_first_match_witness :
    getUserAuthenticationMethodID (fixedListing [am2, am1, am3]) (phone "" true) start
      = Outcome.returns (("am1", none), { remote := (), calls := [Call.list "u1"] }) :=
  lookup_first_match (fixedListing [am2, am1, am3]) (phone "" true) start [am2] [am3] am1 "am1"
    rfl
    (by
      intro x hx
      rw [List.mem_singleton] at hx
      subst hx
      exact ⟨"Phone", rfl, fun _ => ⟨"email", rfl, by decide⟩⟩)
    rfl rfl rfl

/-- C6, as stated, fails. The client `nilListing` answers the listing call with
a nil error and a nil list pointer, so the listing is successful and has no
entry at all, yet the lookup panics on `authMethods.Authenticators` instead of
returning `NOTFOUND`. The client `fixedListing [unnamed]` answers with a list
that has no entry with name `Phone` and type `totp`, yet the lookup panics on
the absent `Name`. -/
theorem lookup_sentinel_counterexample :
    ((nilListing.ListAuthenticationMethods start.remote "u1").2 = Except.ok none
      ∧ getUserAuthenticationMethodID nilListing (phone "" true) start = Outcome.panics)
    ∧ (((fixedListing [unnamed]).ListAuthenticationMethods start.remote "u1").2
        = Except.ok (some { Authenticators := [unnamed] })
      ∧ (∀ m ∈ [unnamed], ¬ (m.Name = some (phone "" true).name
          ∧ m.Type' = some (phone "" true).type))
      ∧ getUserAuthenticationMethodID (fixedListing [unnamed]) (phone "" true) start
        = Outcome.panics) :=
  ⟨⟨rfl, by decide⟩, ⟨rfl, by decide, by decide⟩⟩

/-- C6 (amended): for every `user_id`, `type`, `name` and every successful
listing whose list pointer is not nil (the list with no entries included) and
in which every entry has its name present and, where that name is the sought
one, its type present and different from the sought one,
`getUserAuthenticationMethodID` returns `NOTFOUND` with no error; when the
listing call fails it returns the empty string with that error; and it returns
an error only in that case, always with the empty string. -/
theorem lookup_sentinel {σ : Type} (api : API σ) (data : ResourceData) (w : World σ) :
    (∀ authMethods,
        (api.ListAuthenticationMethods w.remote data.user_id).2
          = Except.ok (some { Authenticators := authMethods }) →
        (∀ x ∈ authMethods, ∃ n, x.Name = some n ∧
          (n = data.name → ∃ t, x.Type' = some t ∧ t ≠ data.type)) →
        getUserAuthenticationMethodID api data w
          = Outcome.returns (("NOTFOUND", none), (World.list api w data.user_id).1))
      ∧ (∀ err,
        (api.ListAuthenticationMethods w.remote data.user_id).2 = Except.error err →
        getUserAuthenticationMethodID api data w
          = Outcome.returns (("", some err), (World.list api w data.user_id).1))
      ∧ (∀ s err w1,
        getUserAuthenticationMethodID api data w = Outcome.returns ((s, some err), w1) →
        s = "" ∧ (api.ListAuthenticationMethods w.remote data.user_id).2 = Except.error err) := by
  refine ⟨?_, ?_, ?_⟩
  · intro authMethods hlist hnone
    have hloop := lookup_loop_absent data.name data.type authMethods hnone
    simp [getUserAuthenticationMethodID, World.list, hlist, hloop]
  · intro err hlist
    simp [getUserAuthenticationMethodID, World.list, hlist]
  · intro s err w1 h
    unfold getUserAuthenticationMethodID at h
    simp only [World.list] at h
    cases hlist : (api.ListAuthenticationMethods w.remote data.user_id).2 with
    | error e =>
      simp only [hlist, Outcome.returns.injEq, Prod.mk.injEq, Option.some.injEq] at h
      exact ⟨h.1.1.symm, by rw [h.1.2]⟩
    | ok o =>
      cases o with
      | none => simp [hlist] at h
      | some l =>
        simp only [hlist] at h
        cases hloop : getUserAuthenticationMethodID_loop l.Authenticators data.name
            data.type with
        | panics => simp [hloop] at h
        | returns r =>
          cases r <;> simp [hloop] at h

/-- Instance of C6 (amended): against the listing `[am2]`, whose only entry has
the sought name but another type, and against the list with no entries, the
lookup returns `NOTFOUND`; against a failing client it returns the empty string
and the error. -/
theorem lookup_sentinel_witness :
    getUserAuthenticationMethodID (fixedListing [am2]) (phone "" true) start
        = Outcome.returns (("NOTFOUND", none), { remote := (), calls := [Call.list "u1"] })
      ∧ getUserAuthenticationMethodID (fixedListing []) (phone "" true) start
        = Outcome.returns (("NOTFOUND", none), { remote := (), calls := [Call.list "u1"] })
      ∧ getUserAuthenticationMethodID (failing ⟨"timeout", false⟩) (phone "" true) start
        = Outcome.returns (("", some ⟨"timeout", false⟩),
            { remote := (), calls := [Call.list "u1"] }) :=
  ⟨(lookup_sentinel (fixedListing [am2]) (phone "" true) start).1 [am2] rfl
      (by
        intro x hx
        rw [List.mem_singleton] at hx
        subst hx
        exact ⟨"Phone", rfl, fun _ => ⟨"email", rfl, by decide⟩⟩),
    (lookup_sentinel (fixedListing []) (phone "" true) start).1 [] rfl
      (fun _ hx => absurd hx (List.not_mem_nil _)),
    (lookup_sentinel (failing ⟨"timeout", false⟩) (phone "" true) start).2.1
      ⟨"timeout", false⟩ rfl⟩

/-! ## Delete -/

/-- C4: when the deletion call reports an error, `deleteUserAuthenticationMethod`
returns no diagnostics if the error is a not-found condition (the identifier is
cleared on the way), and returns the error as one error diagnostic, leaving the
resource data as it was, for every other error. One deletion call is made. -/
theorem delete_idempotent {σ : Type} (api : API σ) (data : ResourceData) (w : World σ)
    (err : APIError)
    (hdel : (api.DeleteAuthenticationMethod w.remote data.user_id data.id).2 = some err) :
    (err.notFound = true →
        deleteUserAuthenticationMethod api data w
          = Outcome.returns ([], data.SetId "", (World.delete api w data.user_id data.id).1))
      ∧ (err.notFound = false →
        deleteUserAuthenticationMethod api data w
          = Outcome.returns ([{ Severity := Severity.Error, Summary := err.message }], data,
              (World.delete api w data.user_id data.id).1)) := by
  constructor <;> intro hnf <;>
    simp [deleteUserAuthenticationMethod, World.delete, ResourceData.Id, hdel, HandleAPIError,
      hnf, FromErr]

/-- Instance of C4: deleting `am1` of user `u1` when the API answers "not found"
succeeds, and when it answers with another error the error is reported. -/
theorem delete_idempotent_witness :
    deleteUserAuthenticationMethod (failing ⟨"404 Not Found", true⟩) (phone "am1" false) start
        = Outcome.returns ([], phone "" false,
            { remote := (), calls := [Call.delete "u1" "am1"] })
      ∧ deleteUserAuthenticationMethod (failing ⟨"503 Unavailable", false⟩) (phone "am1" false)
          start
        = Outcome.returns ([{ Severity := Severity.Error, Summary := "503 Unavailable" }],
            phone "am1" false, { remote := (), calls := [Call.delete "u1" "am1"] }) :=
  ⟨(delete_idempotent (failing ⟨"404 Not Found", true⟩) (phone "am1" false) start
      ⟨"404 Not Found", true⟩ rfl).1 rfl,
    (delete_idempotent (failing ⟨"503 Unavailable", false⟩) (phone "am1" false) start
      ⟨"503 Unavailable", false⟩ rfl).2 rfl⟩

/-! ## Create -/

/-- C7: if the create call returns an error, `createUserAuthenticationMethod`
returns exactly that error as its diagnostics, leaves the resource data (the
identifier included) as it was, and the create call is the only call it made:
no listing call follows. -/
theorem create_failure_atomic {σ : Type} (api : API σ) (data : ResourceData) (w : World σ)
    (err : APIError)
    (hcreate : (api.CreateAuthenticationMethod w.remote data.user_id (createRequest data)).2
      = some err) :
    createUserAuthenticationMethod api data w
      = Outcome.returns (FromErr (some err), data,
          { remote := (api.CreateAuthenticationMethod w.remote data.user_id
              (createRequest data)).1,
            calls := w.calls ++ [Call.create data.user_id (createRequest data)] }) := by
  simp [createUserAuthenticationMethod, World.create, hcreate]

/-- Instance of C7: a create that fails with `429` reports that error, leaves
the identifier empty and lists nothing. -/
theorem create_failure_atomic_witness :
    createUserAuthenticationMethod (failing ⟨"429 Too Many Requests", false⟩) (phone "" true)
        start
      = Outcome.returns ([{ Severity := Severity.Error, Summary := "429 Too Many Requests" }],
          phone "" true,
          { remote := (),
            calls := [Call.create "u1" (createRequest (phone "" true))] }) :=
  create_failure_atomic (failing ⟨"429 Too Many Requests", false⟩) (phone "" true) start
    ⟨"429 Too Many Requests", false⟩ rfl

/-- A read that returns no diagnostics either leaves the resource data as it
was, or has cleared the identifier; the latter only for a resource that is not
new, or when the listing failed with a not-found error. -/
theorem read_returns_clean {σ : Type} (api : API σ) (data d1 : ResourceData) (w w1 : World σ)
    (h : readUserAuthenticationMethod api data w = Outcome.returns ([], d1, w1)) :
    d1 = data ∨ (d1.id = "" ∧ (data.isNew = false ∨
      ∃ err, (api.ListAuthenticationMethods w.remote data.user_id).2 = Except.error err
        ∧ err.notFound = true)) := by
  unfold readUserAuthenticationMethod at h
  simp only [World.list] at h
  cases hlist : (api.ListAuthenticationMethods w.remote data.user_id).2 with
  | error e =>
    simp only [hlist] at h
    cases hnf : e.notFound with
    | false => simp [HandleAPIError, hnf, FromErr] at h
    | true =>
      simp only [HandleAPIError, hnf, if_true, FromErr, Outcome.returns.injEq,
        Prod.mk.injEq, true_and] at h
      right
      exact ⟨by rw [← h.1]; rfl, Or.inr ⟨e, rfl, hnf⟩⟩
  | ok o =>
    cases o with
    | none => simp [hlist] at h
    | some l =>
      simp only [hlist] at h
      cases hloop : readUserAuthenticationMethod_loop l.Authenticators data.Id with
      | panics => simp [hloop] at h
      | returns b =>
        cases b with
        | true =>
          simp only [hloop, Outcome.returns.injEq, Prod.mk.injEq, true_and] at h
          exact Or.inl h.1.symm
        | false =>
          cases hnew : data.isNew with
          | true =>
            simp only [hloop, ResourceData.IsNewResource, hnew, Bool.not_true,
              Bool.false_eq_true, if_false, Outcome.returns.injEq, Prod.mk.injEq,
              true_and] at h
            exact Or.inl h.1.symm
          | false =>
            simp only [hloop, ResourceData.IsNewResource, hnew, Bool.not_false, if_true,
              Outcome.returns.injEq, Prod.mk.injEq, true_and] at h
            right
            exact ⟨by rw [← h.1]; rfl, Or.inl rfl⟩

/-- A lookup that returns without error has been handed a list object, and its
answer is the identifier of an entry with the sought type and name, or
`NOTFOUND` when the list has no such entry. -/
theorem lookup_returns_clean {σ : Type} (api : API σ) (data : ResourceData) (w w1 : World σ)
    (s : String)
    (h : getUserAuthenticationMethodID api data w = Outcome.returns ((s, none), w1)) :
    w1 = (World.list api w data.user_id).1 ∧
    ∃ authMethods,
      (api.ListAuthenticationMethods w.remote data.user_id).2
        = Except.ok (some { Authenticators := authMethods }) ∧
      ((∃ m ∈ authMethods, m.ID = some s ∧ m.Type' = some data.type ∧ m.Name = some data.name)
        ∨ (s = "NOTFOUND" ∧
          ∀ m ∈ authMethods, ¬ (m.Name = some data.name ∧ m.Type' = some data.type))) := by
  unfold getUserAuthenticationMethodID at h
  simp only [World.list] at h
  cases hlist : (api.ListAuthenticationMethods w.remote data.user_id).2 with
  | error e => simp [hlist] at h
  | ok o =>
    cases o with
    | none => simp [hlist] at h
    | some l =>
      simp only [hlist] at h
      cases hloop : getUserAuthenticationMethodID_loop l.Authenticators data.name
          data.type with
      | panics => simp [hloop] at h
      | returns r =>
        have hsound := lookup_loop_sound data.name data.type l.Authenticators r hloop
        cases r with
        | some i =>
          simp only [hloop, Outcome.returns.injEq, Prod.mk.injEq, and_true] at h
          obtain ⟨hi, hw⟩ := h
          subst hi
          exact ⟨by rw [← hw]; rfl, l.Authenticators, rfl, Or.inl hsound⟩
        | none =>
          simp only [hloop, Outcome.returns.injEq, Prod.mk.injEq, and_true] at h
          obtain ⟨hi, hw⟩ := h
          exact ⟨by rw [← hw]; rfl, l.Authenticators, rfl, Or.inr ⟨hi.symm, hsound⟩⟩

/-- C1, as stated, fails: with non-empty inputs and a client whose listing is
`[am2]` (no entry of type `totp` named `Phone`), the create of a new resource
returns no diagnostics and leaves the identifier `NOTFOUND`, which is the
identifier of no listed entry at all. -/
theorem create_identifier_counterexample :
    ((phone "" true).user_id ≠ "" ∧ (phone "" true).type ≠ "" ∧ (phone "" true).name ≠ ""
        ∧ (phone "" true).totp_secret ≠ "")
      ∧ (∀ s u, ((fixedListing [am2]).ListAuthenticationMethods s u).2
          = Except.ok (some { Authenticators := [am2] }))
      ∧ createUserAuthenticationMethod (fixedListing [am2]) (phone "" true) start
        = Outcome.returns ([], phone "NOTFOUND" true,
            { remote := (),
              calls := [Call.create "u1" (createRequest (phone "" true)), Call.list "u1",
                Call.list "u1"] })
      ∧ ¬ ∃ m ∈ [am2], m.ID = some (phone "NOTFOUND" true).id :=
  ⟨by decide, fun _ _ => rfl, by decide, by decide⟩

/-- C1 (amended): for every input and every behaviour of the remote API,
whenever `createUserAuthenticationMethod` returns no diagnostics, the listing
taken by the lookup after the create call succeeded with a list object, and the
identifier left in state is the id of some entry of that list whose type and
name equal the submitted ones, or it is `NOTFOUND` and that list has no such
entry, or it is the empty string; the last only for a resource not marked as new
or when the listing of the trailing read failed with a not-found error. -/
theorem create_identifier {σ : Type} (api : API σ) (data d1 : ResourceData) (w w1 : World σ)
    (h : createUserAuthenticationMethod api data w = Outcome.returns ([], d1, w1)) :
    ∃ authMethods,
      (api.ListAuthenticationMethods
          (api.CreateAuthenticationMethod w.remote data.user_id (createRequest data)).1
          data.user_id).2 = Except.ok (some { Authenticators := authMethods }) ∧
      ((∃ m ∈ authMethods,
          m.ID = some d1.id ∧ m.Type' = some data.type ∧ m.Name = some data.name)
        ∨ (d1.id = "NOTFOUND" ∧
          ∀ m ∈ authMethods, ¬ (m.Name = some data.name ∧ m.Type' = some data.type))
        ∨ (d1.id = "" ∧ (data.isNew = false ∨
          ∃ err, (api.ListAuthenticationMethods
              (api.ListAuthenticationMethods
                (api.CreateAuthenticationMethod w.remote data.user_id (createRequest data)).1
                data.user_id).1
              data.user_id).2 = Except.error err ∧ err.notFound = true))) := by
  unfold createUserAuthenticationMethod at h
  dsimp only at h
  have hr0 : (World.create api w data.user_id (createRequest data)).1.remote
      = (api.CreateAuthenticationMethod w.remote data.user_id (createRequest data)).1 := rfl
  generalize World.create api w data.user_id (createRequest data) = p at h hr0
  obtain ⟨w0, oe⟩ := p
  simp only at h hr0
  cases oe with
  | some e => simp [FromErr] at h
  | none =>
    simp only at h
    cases hget : getUserAuthenticationMethodID api data w0 with
    | panics => simp [hget] at h
    | returns r =>
      obtain ⟨⟨s, oe⟩, w2⟩ := r
      cases oe with
      | some e => simp [hget, FromErr] at h
      | none =>
        simp only [hget] at h
        obtain ⟨hw2, authMethods, hlist, hcase⟩ := lookup_returns_clean api data w0 w2 s hget
        rw [hr0] at hlist
        refine ⟨authMethods, hlist, ?_⟩
        have hread := read_returns_clean api (data.SetId s) d1 w2 w1 h
        have hw2r : w2.remote = (api.ListAuthenticationMethods
            (api.CreateAuthenticationMethod w.remote data.user_id (createRequest data)).1
            data.user_id).1 := by
          rw [hw2, ← hr0]
          rfl
        rcases hread with hd | ⟨hid, hwhy⟩
        · have hs : d1.id = s := by rw [hd]; rfl
          rcases hcase with hfound | ⟨hnf, hnone⟩
          · left
            rw [hs]
            exact hfound
          · right; left
            exact ⟨by rw [hs, hnf], hnone⟩
        · right; right
          refine ⟨hid, ?_⟩
          rcases hwhy with hnew | ⟨e, he, hnf⟩
          · exact Or.inl hnew
          · right
            refine ⟨e, ?_, hnf⟩
            rw [← hw2r]
            exact he

/-- Instance of C1 (amended): against the listing `[am2, am1]` the create of a
new resource returns no diagnostics, and the statement holds of its result,
whose identifier is `am1`. -/
theorem create_identifier_witness :
    createUserAuthenticationMethod (fixedListing [am2, am1]) (phone "" true) start
        = Outcome.returns ([], phone "am1" true,
            { remote := (),
              calls := [Call.create "u1" (createRequest (phone "" true)), Call.list "u1",
                Call.list "u1"] })
      ∧ ∃ authMethods,
          ((fixedListing [am2, am1]).ListAuthenticationMethods () "u1").2
            = Except.ok (some { Authenticators := authMethods }) ∧
          ((∃ m ∈ authMethods, m.ID = some "am1" ∧ m.Type' = some "totp" ∧ m.Name = some "Phone")
            ∨ ("am1" = "NOTFOUND" ∧
              ∀ m ∈ authMethods, ¬ (m.Name = some "Phone" ∧ m.Type' = some "totp"))
            ∨ ("am1" = "" ∧ (true = false ∨
              ∃ err, ((fixedListing [am2, am1]).ListAuthenticationMethods () "u1").2
                = Except.error err ∧ err.notFound = true))) :=
  ⟨by decide,
    create_identifier (fixedListing [am2, am1]) (phone "" true) (phone "am1" true) start
      { remote := (),
        calls := [Call.create "u1" (createRequest (phone "" true)), Call.list "u1",
          Call.list "u1"] }
      (by decide)⟩

/-- C9, as stated, fails, in three ways. With the client `nilListing` the create
call succeeds and both listings succeed with a nil list pointer, so no entry has
the submitted name and type, yet the create of a new resource panics in the
lookup on `authMethods.Authenticators`. With the client `fixedListing [unnamed]`
both listings succeed and the first has no entry named `Phone` of type `totp`,
yet the create panics in the lookup on the absent `Name`. With the client
`twoListings [] [anonymous]` the first listing has no entries and the second is
`[anonymous]`; the create panics in the trailing read on the absent `ID`. In no
case does it end with the identifier `NOTFOUND`. -/
theorem create_unfound_sentinel_counterexample :
    ((phone "" true).isNew = true
      ∧ (∀ s u a, (nilListing.CreateAuthenticationMethod s u a).2 = none)
      ∧ (∀ s u, (nilListing.ListAuthenticationMethods s u).2 = Except.ok none)
      ∧ createUserAuthenticationMethod nilListing (phone "" true) start = Outcome.panics)
    ∧ ((∀ s u a, ((fixedListing [unnamed]).CreateAuthenticationMethod s u a).2 = none)
      ∧ (∀ s u, ((fixedListing [unnamed]).ListAuthenticationMethods s u).2
          = Except.ok (some { Authenticators := [unnamed] }))
      ∧ (∀ m ∈ [unnamed], ¬ (m.Name = some (phone "" true).name
          ∧ m.Type' = some (phone "" true).type))
      ∧ createUserAuthenticationMethod (fixedListing [unnamed]) (phone "" true) start
        = Outcome.panics)
    ∧ ((∀ s u a, ((twoListings [] [anonymous]).CreateAuthenticationMethod s u a) = (s, none))
      ∧ (twoListings [] [anonymous]).ListAuthenticationMethods false "u1"
        = (true, Except.ok (some { Authenticators := [] }))
      ∧ (twoListings [] [anonymous]).ListAuthenticationMethods true "u1"
        = (true, Except.ok (some { Authenticators := [anonymous] }))
      ∧ createUserAuthenticationMethod (twoListings [] [anonymous]) (phone "" true) fresh
        = Outcome.panics) :=
  ⟨⟨rfl, fun _ _ _ => rfl, fun _ _ => rfl, by decide⟩,
    ⟨fun _ _ _ => rfl, fun _ _ => rfl, by decide, by decide⟩,
    ⟨fun _ _ _ => rfl, rfl, rfl, by decide⟩⟩

/-- C9 (amended): for every input for which the create call succeeds and both
subsequent listings succeed with a list object, where every entry of the first
list has its name present and, where that name is the submitted one, its type
present and different from the submitted one, and every entry of the second list
that is listed before the first entry whose id is `NOTFOUND` (every entry, when
there is none) has its id present, `createUserAuthenticationMethod`, run on a
resource marked as new, returns no diagnostics and ends with the resource
identifier equal to `NOTFOUND`, the attributes unchanged, after one create call
and two listing calls. -/
theorem create_unfound_sentinel {σ : Type} (api : API σ) (data : ResourceData) (w : World σ)
    (first second : List AuthenticationMethod)
    (hnew : data.isNew = true)
    (hcreate : (api.CreateAuthenticationMethod w.remote data.user_id (createRequest data)).2
      = none)
    (hfirst : (api.ListAuthenticationMethods
        (api.CreateAuthenticationMethod w.remote data.user_id (createRequest data)).1
        data.user_id).2 = Except.ok (some { Authenticators := first }))
    (hsecond : (api.ListAuthenticationMethods
        (api.ListAuthenticationMethods
          (api.CreateAuthenticationMethod w.remote data.user_id (createRequest data)).1
          data.user_id).1
        data.user_id).2 = Except.ok (some { Authenticators := second }))
    (hnone : ∀ x ∈ first, ∃ n, x.Name = some n ∧
      (n = data.name → ∃ t, x.Type' = some t ∧ t ≠ data.type))
    (hids : ∀ x ∈ second.takeWhile (fun y => decide (y.ID ≠ some "NOTFOUND")),
      ∃ i, x.ID = some i) :
    createUserAuthenticationMethod api data w
      = Outcome.returns ([], data.SetId "NOTFOUND",
          (World.list api
            (World.list api (World.create api w data.user_id (createRequest data)).1
              data.user_id).1
            data.user_id).1) := by
  have hlookup := lookup_loop_absent data.name data.type first hnone
  obtain ⟨b, hb⟩ := read_loop_returns_until "NOTFOUND" second hids
  cases b <;>
    simp [createUserAuthenticationMethod, getUserAuthenticationMethodID,
      readUserAuthenticationMethod, World.create, World.list, hcreate, hfirst, hsecond,
      hlookup, hb, ResourceData.Id, ResourceData.SetId, ResourceData.IsNewResource, hnew]

/-- Instance of C9 (amended): the first listing, `[am2]`, has no TOTP method
named `Phone`; in the second listing, `[am1, stray, anonymous]`, the entry
without an identifier comes after the entry whose identifier is `NOTFOUND`. The
create of a new resource ends with the identifier `NOTFOUND` and no
diagnostics. -/
theorem create_unfound_sentinel_witness :
    createUserAuthenticationMethod (twoListings [am2] [am1, stray, anonymous]) (phone "" true)
        fresh
      = Outcome.returns ([], phone "NOTFOUND" true,
          { remote := true,
            calls := [Call.create "u1" (createRequest (phone "" true)), Call.list "u1",
              Call.list "u1"] }) :=
  create_unfound_sentinel (twoListings [am2] [am1, stray, anonymous]) (phone "" true) fresh
    [am2] [am1, stray, anonymous] rfl rfl rfl rfl
    (by
      intro x hx
      rw [List.mem_singleton] at hx
      subst hx
      exact ⟨"Phone", rfl, fun _ => ⟨"email", rfl, by decide⟩⟩)
    (by
      intro x hx
      have htake : [am1, stray, anonymous].takeWhile
          (fun y => decide (y.ID ≠ some "NOTFOUND")) = [am1] := by decide
      rw [htake, List.mem_singleton] at hx
      subst hx
      exact ⟨"am1", rfl⟩)

/-! ## Absent fields -/

/-- C10, as stated, fails: the client `nilListing` answers the listing call with
a nil error and a nil list pointer; the listing is successful and, having no
entry, has no entry with an absent field, yet both functions panic on
`authMethods.Authenticators` (source lines 88 and 127). -/
theorem no_nil_dereference_counterexample :
    (nilListing.ListAuthenticationMethods start.remote "u1").2 = Except.ok none
      ∧ (∀ l, (nilListing.ListAuthenticationMethods start.remote "u1").2 = Except.ok (some l) →
          ∀ m ∈ l.Authenticators, (∃ i, m.ID = some i) ∧ (∃ n, m.Name = some n) ∧
            (∃ t, m.Type' = some t))
      ∧ readUserAuthenticationMethod nilListing (phone "am1" false) start = Outcome.panics
      ∧ getUserAuthenticationMethodID nilListing (phone "am1" false) start = Outcome.panics :=
  ⟨rfl, fun _ hl => (by cases hl), by decide, by decide⟩

/-- C10 (amended): for every list in which every entry has its id, name and type
present, neither loop takes the nil-dereference branch, for every current
identifier, type and name; hence, for every successful listing whose list
pointer is not nil and which holds such a list, neither
`readUserAuthenticationMethod` nor `getUserAuthenticationMethodID` panics. -/
theorem no_nil_dereference (authMethods : List AuthenticationMethod)
    (hwf : ∀ m ∈ authMethods, (∃ i, m.ID = some i) ∧ (∃ n, m.Name = some n) ∧
      (∃ t, m.Type' = some t)) :
    (∀ id, readUserAuthenticationMethod_loop authMethods id ≠ Outcome.panics)
      ∧ (∀ name authType,
        getUserAuthenticationMethodID_loop authMethods name authType ≠ Outcome.panics)
      ∧ (∀ (σ : Type) (api : API σ) (data : ResourceData) (w : World σ),
        (api.ListAuthenticationMethods w.remote data.user_id).2
          = Except.ok (some { Authenticators := authMethods }) →
        readUserAuthenticationMethod api data w ≠ Outcome.panics
          ∧ getUserAuthenticationMethodID api data w ≠ Outcome.panics) := by
  have hread : ∀ id, readUserAuthenticationMethod_loop authMethods id ≠ Outcome.panics := by
    intro id
    obtain ⟨b, hb⟩ := read_loop_returns id authMethods (fun m hm => (hwf m hm).1)
    rw [hb]
    exact Outcome.noConfusion
  have hlookup : ∀ name authType,
      getUserAuthenticationMethodID_loop authMethods name authType ≠ Outcome.panics := by
    intro name authType
    obtain ⟨r, hr⟩ := lookup_loop_returns name authType authMethods hwf
    rw [hr]
    exact Outcome.noConfusion
  refine ⟨hread, hlookup, ?_⟩
  intro σ api data w hlist
  constructor
  · obtain ⟨b, hb⟩ := read_loop_returns data.id authMethods (fun m hm => (hwf m hm).1)
    cases b <;> cases hnew : data.isNew <;>
      simp [readUserAuthenticationMethod, World.list, hlist, ResourceData.Id,
        ResourceData.IsNewResource, hb, hnew]
  · obtain ⟨r, hr⟩ := lookup_loop_returns data.name data.type authMethods hwf
    cases r <;> simp [getUserAuthenticationMethodID, World.list, hlist, hr]

/-- Instance of C10 (amended): the listing `[am2, am1, am3]` has every field
present, so neither function panics on it. -/
theorem no_nil_dereference_witness :
    readUserAuthenticationMethod (fixedListing [am2, am1, am3]) (phone "am9" false) start
        ≠ Outcome.panics
      ∧ getUserAuthenticationMethodID (fixedListing [am2, am1, am3]) (phone "am9" false) start
        ≠ Outcome.panics :=
  (no_nil_dereference [am2, am1, am3]
    (by
      intro m hm
      simp only [List.mem_cons, List.mem_singleton, List.not_mem_nil, or_false] at hm
      rcases hm with rfl | rfl | rfl
      · exact ⟨⟨"am2", rfl⟩, ⟨"Phone", rfl⟩, ⟨"email", rfl⟩⟩
      · exact ⟨⟨"am1", rfl⟩, ⟨"Phone", rfl⟩, ⟨"totp", rfl⟩⟩
      · exact ⟨⟨"am3", rfl⟩, ⟨"Phone", rfl⟩, ⟨"totp", rfl⟩⟩)).2.2
    Unit (fixedListing [am2, am1, am3]) (phone "am9" false) start rfl

/-! ## Schema -/

/-- C8: the schema returned by `NewAuthenticationMethodResource` declares exactly
the four fields `user_id`, `type`, `name` and `totp_secret`, each a string with
`ForceNew` set; `user_id`, `type` and `name` are `Required` (and neither
`Optional` nor `Sensitive`); `totp_secret` is `Optional` and `Sensitive` (and not
`Required`); the resource defines the create, read and delete operations, which
are the three functions of this file, and no update operation. -/
theorem schema_create_only (σ : Type) :
    (NewAuthenticationMethodResource σ).Schema.map Prod.fst
        = ["user_id", "type", "name", "totp_secret"]
      ∧ (∀ kv ∈ (NewAuthenticationMethodResource σ).Schema,
          kv.2.Type' = ValueType.TypeString ∧ kv.2.ForceNew = true)
      ∧ (∀ key ∈ ["user_id", "type", "name"],
          ((NewAuthenticationMethodResource σ).field key).map
              (fun f => (f.Required, f.Optional, f.Sensitive))
            = some (true, false, false))
      ∧ ((NewAuthenticationMethodResource σ).field "totp_secret").map
            (fun f => (f.Required, f.Optional, f.Sensitive))
          = some (false, true, true)
      ∧ (NewAuthenticationMethodResource σ).CreateContext = some createUserAuthenticationMethod
      ∧ (NewAuthenticationMethodResource σ).ReadContext = some readUserAuthenticationMethod
      ∧ (NewAuthenticationMethodResource σ).DeleteContext = some deleteUserAuthenticationMethod
      ∧ (NewAuthenticationMethodResource σ).UpdateContext = none
      ∧ (NewAuthenticationMethodResource σ).Update = none
      ∧ (NewAuthenticationMethodResource σ).UpdateWithoutTimeout = none := by
  refine ⟨rfl, ?_, ?_, ?_, rfl, rfl, rfl, rfl, rfl, rfl⟩
  · intro kv hkv
    simp only [NewAuthenticationMethodResource, List.mem_cons, List.mem_singleton,
      List.not_mem_nil, or_false] at hkv
    rcases hkv with rfl | rfl | rfl | rfl <;> exact ⟨rfl, rfl⟩
  · intro key hkey
    simp only [List.mem_cons, List.mem_singleton, List.not_mem_nil, or_false] at hkey
    rcases hkey with rfl | rfl | rfl <;> rfl
  · rfl

end Auth0User
